import Mathlib

/-!
Verification of the dry-run retrain-decision logic of the rasa training CLI.

The repository slice contains `src/rasa/cli/arguments/train.py` (argparse
wiring, including `add_dry_run_param`) and `src/tests/test_train.py`
(tests of `dry_run_result`).  The function `dry_run_result` itself lives in
`rasa/train.py`, which is not part of the slice, so it is modelled from the
specification; `add_dry_run_param` is embedded from the source.
-/

/-- The four-flag comparison result consumed by `dry_run_result`
(`rasa.model.FingerprintComparisonResult`, constructed in
`src/tests/test_train.py` with keyword arguments
`core`, `nlu`, `nlg`, `force_training`). -/
structure FingerprintComparisonResult where
  core : Bool
  nlu : Bool
  nlg : Bool
  force_training : Bool
deriving DecidableEq, Repr

/-- Bitmask value documented for Core in the `--dry-run` help text
(`src/rasa/cli/arguments/train.py`, lines 113-126). -/
def CODE_CORE_NEEDS_TO_BE_RETRAINED : Nat := 1

/-- Bitmask value documented for NLU in the `--dry-run` help text. -/
def CODE_NLU_NEEDS_TO_BE_RETRAINED : Nat := 2

/-- Bitmask value documented for NLG/responses in the `--dry-run` help text. -/
def CODE_NLG_NEEDS_TO_BE_RETRAINED : Nat := 4

/-- Bitmask value documented for forced training in the `--dry-run` help text. -/
def CODE_FORCED_TRAINING : Nat := 8

/-- Modelled from the spec: the function `dry_run_result` of `rasa/train.py`
is missing from the slice (only its tests in `src/tests/test_train.py` call
it).  Per the spec: if `force_training` is true the code is 8 with a single
message stating training was forced, regardless of the other flags;
otherwise the code is `(4 if nlg else 0) | (2 if nlu else 0) | (1 if core
else 0)` with one message per true flag among core, nlu, nlg; if none is
true the code is 0 with exactly one message stating nothing needs
retraining. -/
def dry_run_result (changes : FingerprintComparisonResult) :
    Nat × List String :=
  if changes.force_training then
    (CODE_FORCED_TRAINING, ["The training was forced."])
  else
    let texts : List String :=
      (if changes.core then ["Core model should be retrained."] else []) ++
      (if changes.nlu then ["NLU model should be retrained."] else []) ++
      (if changes.nlg then ["Responses in the domain should be updated."]
       else [])
    let code : Nat :=
      (if changes.nlg then CODE_NLG_NEEDS_TO_BE_RETRAINED else 0) |||
      (if changes.nlu then CODE_NLU_NEEDS_TO_BE_RETRAINED else 0) |||
      (if changes.core then CODE_CORE_NEEDS_TO_BE_RETRAINED else 0)
    if code = 0 then (0, ["No training of components required."])
    else (code, texts)

/-- The argparse action used by `--dry-run`: `action="store_true"` stores
`True` when the flag occurs on the command line and the default otherwise,
consuming no argument value. -/
inductive ArgparseAction where
  | storeTrue
deriving DecidableEq, Repr

/-- A registered boolean command-line argument: the option string, the
default value and its action, as passed to `parser.add_argument`. -/
structure BoolArgument where
  optionString : String
  default : Bool
  action : ArgparseAction
deriving Repr

/-- Embeds `add_dry_run_param` (`src/rasa/cli/arguments/train.py`, lines
105-126): `parser.add_argument("--dry-run", default=False,
action="store_true", help=...)`. -/
def add_dry_run_param : BoolArgument :=
  { optionString := "--dry-run"
    default := false
    action := ArgparseAction.storeTrue }

/-- Semantics of argparse for a `store_true` argument: the parsed value is
`true` when the option string occurs among the command-line tokens and the
registered default otherwise. -/
def parseBoolArgument (arg : BoolArgument) (argv : List String) : Bool :=
  match arg.action with
  | ArgparseAction.storeTrue =>
      if argv.contains arg.optionString then true else arg.default

/-- C1: for every input with `force_training = true`, `dry_run_result`
returns code 8 and a message list of length exactly 1, regardless of
`core`, `nlu` and `nlg`. -/
theorem dry_run_result_force_training
    (r : FingerprintComparisonResult) (h : r.force_training = true) :
    (dry_run_result r).1 = 8 ∧ (dry_run_result r).2.length = 1 := by
  rcases r with ⟨c, n, g, f⟩
  simp only at h
  subst h
  revert c n g
  decide

/-- Witness for C1 at the concrete input (core=T, nlu=T, nlg=T, force=T). -/
theorem dry_run_result_force_training_witness :
    (FingerprintComparisonResult.mk true true true true).force_training
        = true ∧
      (dry_run_result (FingerprintComparisonResult.mk true true true true)).1
          = 8 ∧
      (dry_run_result
          (FingerprintComparisonResult.mk true true true true)).2.length
          = 1 :=
  ⟨rfl, dry_run_result_force_training
    (FingerprintComparisonResult.mk true true true true) rfl⟩

/-- C2: for every input with `force_training = false`, the code equals
`(4 if nlg else 0) | (2 if nlu else 0) | (1 if core else 0)`; in
particular, with exactly one of core/nlu/nlg true the code equals that
flag's bit value. -/
theorem dry_run_result_code_formula
    (r : FingerprintComparisonResult) (h : r.force_training = false) :
    (dry_run_result r).1 =
        ((if r.nlg then 4 else 0) ||| (if r.nlu then 2 else 0) |||
          (if r.core then 1 else 0)) ∧
      (r.core = true ∧ r.nlu = false ∧ r.nlg = false →
        (dry_run_result r).1 = 1) ∧
      (r.core = false ∧ r.nlu = true ∧ r.nlg = false →
        (dry_run_result r).1 = 2) ∧
      (r.core = false ∧ r.nlu = false ∧ r.nlg = true →
        (dry_run_result r).1 = 4) := by
  rcases r with ⟨c, n, g, f⟩
  simp only at h
  subst h
  revert c n g
  decide

/-- Witness for C2 at the concrete input (core=F, nlu=F, nlg=T, force=F). -/
theorem dry_run_result_code_formula_witness :
    (FingerprintComparisonResult.mk false false true false).force_training
        = false ∧
      (dry_run_result
          (FingerprintComparisonResult.mk false false true false)).1
        = ((if true then 4 else 0) ||| (if false then 2 else 0) |||
            (if false then 1 else 0)) :=
  ⟨rfl,
    (dry_run_result_code_formula
      (FingerprintComparisonResult.mk false false true false) rfl).1⟩

/-- C3: for every input with `force_training = false` and at least one of
core/nlu/nlg true, the message list has exactly one entry per true flag;
in particular with all three true the message count is 3 and the code
is 7. -/
theorem dry_run_result_message_per_flag
    (r : FingerprintComparisonResult) (h : r.force_training = false)
    (hany : r.core = true ∨ r.nlu = true ∨ r.nlg = true) :
    (dry_run_result r).2.length =
        ((if r.core then 1 else 0) + (if r.nlu then 1 else 0) +
          (if r.nlg then 1 else 0)) ∧
      (r.core = true ∧ r.nlu = true ∧ r.nlg = true →
        (dry_run_result r).2.length = 3 ∧ (dry_run_result r).1 = 7) := by
  rcases r with ⟨c, n, g, f⟩
  simp only at h hany
  subst h
  revert c n g
  decide

/-- Witness for C3 at the concrete input (core=T, nlu=T, nlg=T, force=F). -/
theorem dry_run_result_message_per_flag_witness :
    (FingerprintComparisonResult.mk true true true false).force_training
        = false ∧
      (dry_run_result
          (FingerprintComparisonResult.mk true true true false)).2.length
        = 3 ∧
      (dry_run_result (FingerprintComparisonResult.mk true true true false)).1
        = 7 :=
  ⟨rfl,
    ((dry_run_result_message_per_flag
        (FingerprintComparisonResult.mk true true true false) rfl
        (Or.inl rfl)).2 ⟨rfl, rfl, rfl⟩)⟩

/-- C4: for the input with all four flags false, `dry_run_result` returns
code 0 and a message list with exactly one entry. -/
theorem dry_run_result_nothing_to_retrain :
    (dry_run_result
        (FingerprintComparisonResult.mk false false false false)).1 = 0 ∧
      (dry_run_result
          (FingerprintComparisonResult.mk false false false false)).2.length
        = 1 := by
  decide

/-- C5: the five concrete cases of `test_dry_run_result`
(`src/tests/test_train.py`, lines 361-406): inputs
(core, nlu, nlg, force_training) = (F,F,F,T), (T,T,T,T), (F,F,T,F),
(T,T,T,F), (F,F,F,F) map to (code, message count) = (8,1), (8,1), (4,1),
(7,3), (0,1) respectively. -/
theorem dry_run_result_test_cases :
    ((dry_run_result
          (FingerprintComparisonResult.mk false false false true)).1 = 8 ∧
        (dry_run_result
            (FingerprintComparisonResult.mk false false false true)).2.length
          = 1) ∧
      ((dry_run_result
          (FingerprintComparisonResult.mk true true true true)).1 = 8 ∧
        (dry_run_result
            (FingerprintComparisonResult.mk true true true true)).2.length
          = 1) ∧
      ((dry_run_result
          (FingerprintComparisonResult.mk false false true false)).1 = 4 ∧
        (dry_run_result
            (FingerprintComparisonResult.mk false false true false)).2.length
          = 1) ∧
      ((dry_run_result
          (FingerprintComparisonResult.mk true true true false)).1 = 7 ∧
        (dry_run_result
            (FingerprintComparisonResult.mk true true true false)).2.length
          = 3) ∧
      ((dry_run_result
          (FingerprintComparisonResult.mk false false false false)).1 = 0 ∧
        (dry_run_result
            (FingerprintComparisonResult.mk false false false false)).2.length
          = 1) := by
  decide

/-- C6: for every combination of the four boolean inputs, the code is in
the range [0, 15] and the message list is non-empty. -/
theorem dry_run_result_code_range (c n g f : Bool) :
    (dry_run_result (FingerprintComparisonResult.mk c n g f)).1 ≤ 15 ∧
      1 ≤ (dry_run_result (FingerprintComparisonResult.mk c n g f)).2.length
    := by
  revert c n g f
  decide

/-- C7: `dry_run_result` is total: for every combination of the four
boolean inputs it returns a (code, messages) pair; it has no error
branch. -/
theorem dry_run_result_total (r : FingerprintComparisonResult) :
    ∃ code : Nat, ∃ texts : List String, dry_run_result r = (code, texts) :=
  ⟨(dry_run_result r).1, (dry_run_result r).2, rfl⟩

/-- C8: `dry_run_result` is deterministic and depends only on the four
fields of its input: two inputs agreeing on all four flags yield equal
(code, messages) outputs. -/
theorem dry_run_result_deterministic
    (r₁ r₂ : FingerprintComparisonResult)
    (hc : r₁.core = r₂.core) (hn : r₁.nlu = r₂.nlu)
    (hg : r₁.nlg = r₂.nlg)
    (hf : r₁.force_training = r₂.force_training) :
    dry_run_result r₁ = dry_run_result r₂ := by
  rcases r₁ with ⟨c₁, n₁, g₁, f₁⟩
  rcases r₂ with ⟨c₂, n₂, g₂, f₂⟩
  simp only at hc hn hg hf
  subst hc; subst hn; subst hg; subst hf
  rfl

/-- Witness for C8 at two syntactically identical concrete inputs. -/
theorem dry_run_result_deterministic_witness :
    dry_run_result (FingerprintComparisonResult.mk true false true false) =
      dry_run_result (FingerprintComparisonResult.mk true false true false)
    :=
  dry_run_result_deterministic
    (FingerprintComparisonResult.mk true false true false)
    (FingerprintComparisonResult.mk true false true false) rfl rfl rfl rfl

/-- C9: with `force_training = false` the encoding is injective on
(core, nlu, nlg): bit 0 of the code recovers core, bit 1 recovers nlu and
bit 2 recovers nlg, so the code round-trips to the original flags. -/
theorem dry_run_result_code_decodes (c n g : Bool) :
    ((dry_run_result (FingerprintComparisonResult.mk c n g false)).1.testBit
          0 = c ∧
      (dry_run_result (FingerprintComparisonResult.mk c n g false)).1.testBit
          1 = n ∧
      (dry_run_result (FingerprintComparisonResult.mk c n g false)).1.testBit
          2 = g) := by
  revert c n g
  decide

/-- C10: `add_dry_run_param` registers `--dry-run` with action
`store_true` (no argument value) and default `False`, so the parsed value
is false for every command line not mentioning `--dry-run` and true for
every command line mentioning it. -/
theorem add_dry_run_param_spec :
    add_dry_run_param.optionString = "--dry-run" ∧
      add_dry_run_param.default = false ∧
      add_dry_run_param.action = ArgparseAction.storeTrue ∧
      ∀ argv : List String,
        ("--dry-run" ∉ argv →
          parseBoolArgument add_dry_run_param argv = false) ∧
        ("--dry-run" ∈ argv →
          parseBoolArgument add_dry_run_param argv = true) := by
  refine ⟨rfl, rfl, rfl, fun argv => ⟨fun h => ?_, fun h => ?_⟩⟩
  · simp [parseBoolArgument, add_dry_run_param, h]
  · simp [parseBoolArgument, add_dry_run_param, h]

/-- Witness for C10: the flag parses to true when present and to its
default false when absent. -/
theorem add_dry_run_param_spec_witness :
    ("--dry-run" ∈ ["train", "--dry-run"] ∧
        parseBoolArgument add_dry_run_param ["train", "--dry-run"] = true) ∧
      ("--dry-run" ∉ ["train", "--force"] ∧
        parseBoolArgument add_dry_run_param ["train", "--force"] = false) :=
  ⟨⟨by decide,
      (add_dry_run_param_spec.2.2.2 ["train", "--dry-run"]).2 (by decide)⟩,
    ⟨by decide,
      (add_dry_run_param_spec.2.2.2 ["train", "--force"]).1 (by decide)⟩⟩
